import Mathlib

/-!
# Verification of the BIM Portal Python client's authentication core

Shallow embedding of the token lifecycle subsystem of the `bim-portal`
repository (`Python_client/`):

* `TokenManager` (`Python_client/auth/token_manager.py`): token store with
  expiry-margin check and JWT-expiry fallback;
* `AuthService`, exception-typed variant
  (`Python_client/client/auth/auth_service_impl.py`) and GUID-scoped variant
  (`Python_client/auth/auth_service_impl.py`): login / refresh orchestration;
* `BaseClient._get_auth_headers` and `BaseClient._make_authenticated_request`
  (`Python_client/client/base_client.py`, identical logic in
  `enhanced_bim_client.py`): header construction and the 401/403 retry loop.

Modelling conventions:

* timestamps are seconds since the Unix epoch as `Int`; all Python `datetime`
  values in the source are timezone-aware UTC, so the comparison semantics
  collapse to integer comparison;
* Python truthiness of an optional string (`not self._access_token`) is
  `pyTruthyOpt`: `None` and `""` are falsy;
* network endpoints (`requests.post`, `httpx.Client.request`) are oracles
  supplied as explicit parameters; a call's outcome is an `HttpOutcome`
  (status + parse result of the body) or a raised requests exception kind;
* the PyJWT `jwt.decode` call is an oracle `String → JwtDecodeResult`;
* `threading.Lock` serialisation is not modelled except where it is
  observable single-threadedly: `set_token` already holds the non-reentrant
  lock when its unsupported-type branch calls `_clear_tokens`, which
  re-acquires it; that call therefore never returns, which the embedding
  records as `none`.
-/

/-- Python truthiness of an optional string: `None` and `""` are falsy
(`not self._access_token`, `not self.username`, ...). -/
def pyTruthyOpt : Option String → Bool
  | none => false
  | some s => decide (s ≠ "")

/-- Python truthiness of an optional integer claim value: `None` and `0` are
falsy (`if exp:` in `set_token`). -/
def pyTruthyIntOpt : Option Int → Bool
  | none => false
  | some e => decide (e ≠ 0)

/-- The three fields of `TokenManager`: `_access_token`, `_refresh_token`,
`_expires_at` (`token_manager.py`, `__init__`). -/
structure TMState where
  access : Option String
  refresh : Option String
  expiresAt : Option Int
  deriving DecidableEq, Repr

/-- The state created by `TokenManager.__init__`: all three fields `None`. -/
def emptyTM : TMState := ⟨none, none, none⟩

/-- `BIMPortalConfig.TOKEN_REFRESH_MARGIN_MINUTES = 5`, i.e. a margin of
300 seconds (`config.py`, `auth_config.py`). -/
def TOKEN_REFRESH_MARGIN : Int := 300

/-- `BIMPortalConfig.AUTH_RETRY_LIMIT = 1` (`config.py`). -/
def AUTH_RETRY_LIMIT : Nat := 1

/-- `TokenManager.get_access_token`. -/
def get_access_token (st : TMState) : Option String := st.access

/-- `TokenManager.get_refresh_token`. -/
def get_refresh_token (st : TMState) : Option String := st.refresh

/-- `TokenManager.clear_tokens`: resets all three fields to `None`. -/
def clear_tokens (_st : TMState) : TMState := ⟨none, none, none⟩

/-- `TokenManager.is_token_expiring` at clock value `now`
(`datetime.now(timezone.utc)`): true when the access token is Python-falsy or
`_expires_at` is `None`, otherwise `_expires_at <= now + TOKEN_REFRESH_MARGIN`.
(The branch guarantees `expiresAt` is `some`, so `getD 0` is never the
default.) -/
def is_token_expiring (now : Int) (st : TMState) : Bool :=
  if (!pyTruthyOpt st.access) || st.expiresAt.isNone then true
  else decide (st.expiresAt.getD 0 ≤ now + TOKEN_REFRESH_MARGIN)

/-- Result of the oracle for `jwt.decode(token, options={"verify_signature":
False})` followed by `.get("exp")`: either the decode raises `PyJWTError`, or
it yields the (possibly missing) numeric `exp` claim. -/
inductive JwtDecodeResult
  | raises
  | ok (exp : Option Int)
  deriving DecidableEq, Repr

/-- Modelled from the spec: `JWTTokenPublicDto` lives in the repository's
`models.py`, which is not under `src/`; spec §6 gives the response shape
`{token, refreshToken, validTill}`, each field optional, with `validTill`
already a parsed timestamp when the DTO is built by pydantic. -/
structure JWTTokenPublicDto where
  token : Option String
  refreshToken : Option String
  validTill : Option Int
  deriving DecidableEq, Repr

/-- A plain-`dict` token payload as accepted by `set_token`. `validTill = none`
models "key absent or value falsy"; `validTill = some t` models "key present,
truthy, and `datetime.fromisoformat` parses it to timestamp `t` (UTC)". -/
structure TokenDict where
  token : Option String
  refreshToken : Option String
  validTill : Option Int
  deriving DecidableEq, Repr

/-- The three runtime shapes `set_token` distinguishes with `isinstance`:
a `JWTTokenPublicDto`, a `dict`, or anything else. -/
inductive TokenInput
  | dto (d : JWTTokenPublicDto)
  | dict (d : TokenDict)
  | other
  deriving DecidableEq, Repr

/-- The `isinstance(token_data, JWTTokenPublicDto)` branch of `set_token`:
all three fields are assigned from the DTO (the `x if x is not None else None`
expressions are the identity on optionals). -/
def applyDto (d : JWTTokenPublicDto) (_st : TMState) : TMState :=
  ⟨d.token, d.refreshToken, d.validTill⟩

/-- The `isinstance(token_data, dict)` branch of `set_token`: assign
`_access_token` and `_refresh_token` from the dict; set `_expires_at` from a
truthy `validTill`, else fall back to decoding the access token's `exp` claim
when the token is truthy. Note that when the decode succeeds but yields no
truthy `exp`, and when the token is falsy, `_expires_at` is left at its
previous value. -/
def applyDict (decode : String → JwtDecodeResult) (d : TokenDict)
    (st : TMState) : TMState :=
  let st1 : TMState := { st with access := d.token, refresh := d.refreshToken }
  match d.validTill with
  | some t => { st1 with expiresAt := some t }
  | none =>
    if pyTruthyOpt st1.access then
      match decode (Option.getD st1.access "") with
      | JwtDecodeResult.raises => { st1 with expiresAt := none }
      | JwtDecodeResult.ok exp =>
        if pyTruthyIntOpt exp then { st1 with expiresAt := exp } else st1
    else st1

/-- `TokenManager.set_token`. The result is `none` when the call never
returns: the unsupported-type branch calls `self._clear_tokens()`, i.e.
`self.clear_tokens()`, which re-acquires the non-reentrant `threading.Lock`
that `set_token` is already holding, so the call blocks forever. -/
def set_token (decode : String → JwtDecodeResult) (inp : TokenInput)
    (st : TMState) : Option TMState :=
  match inp with
  | TokenInput.dto d => some (applyDto d st)
  | TokenInput.dict d => some (applyDict decode d st)
  | TokenInput.other => none

/-- C2: `is_token_expiring` returns true iff the access token is absent
(Python-falsy: `None` or `""`), or the expiry timestamp is absent, or
`now + TOKEN_REFRESH_MARGIN >= expiresAt`; and for a token stored with expiry
`n + 3600` and the default 300-second margin it is false for every clock value
before `n + 3300` and true from `n + 3300` onward. -/
theorem is_token_expiring_margin_spec :
    (∀ (st : TMState) (now : Int),
      is_token_expiring now st = true ↔
        (pyTruthyOpt st.access = false ∨ st.expiresAt = none ∨
          ∃ e, st.expiresAt = some e ∧ now + TOKEN_REFRESH_MARGIN ≥ e)) ∧
    (∀ (n t : Int) (r : Option String),
      is_token_expiring t ⟨some "tok", r, some (n + 3600)⟩
        = decide (n + 3300 ≤ t)) := by
  constructor
  · intro st now
    rcases st with ⟨a, r, e⟩
    cases e with
    | none => simp [is_token_expiring]
    | some e0 =>
      cases ha : pyTruthyOpt a with
      | false => simp [is_token_expiring, ha]
      | true =>
        have hval : is_token_expiring now ⟨a, r, some e0⟩
            = decide (e0 ≤ now + 300) := by
          simp [is_token_expiring, ha, TOKEN_REFRESH_MARGIN]
        rw [hval]
        simp only [decide_eq_true_eq, TOKEN_REFRESH_MARGIN]
        constructor
        · intro h
          exact Or.inr (Or.inr ⟨e0, rfl, by omega⟩)
        · rintro (h | h | ⟨e1, he1, h⟩)
          · simp [ha] at h
          · cases h
          · obtain rfl : e0 = e1 := by injection he1
            omega
  · intro n t r
    simp only [is_token_expiring, pyTruthyOpt, TOKEN_REFRESH_MARGIN]
    norm_num
    have h1 : decide ("tok" = "") = false := by decide
    rw [h1, Bool.false_or, decide_eq_decide]
    constructor <;> intro h <;> omega

/-- C8 counterexample: a `dict` payload carrying an access token and no
`validTill`, whose JWT decodes but has no `exp` claim, leaves `_expires_at`
at its stale previous value instead of deriving it from the token or clearing
it; the subsequent `is_token_expiring` check is then false, not true. -/
theorem set_token_stale_expiry_cex :
    set_token (fun _ => JwtDecodeResult.ok none)
        (TokenInput.dict ⟨some "jwt.noexp", some "r2", none⟩)
        ⟨some "old", some "r1", some 999999⟩
      = some ⟨some "jwt.noexp", some "r2", some 999999⟩ ∧
    is_token_expiring 0 ⟨some "jwt.noexp", some "r2", some 999999⟩ = false := by
  constructor
  · rfl
  · decide

/-- C8 amended: for a `dict` payload with a truthy access token and no usable
`validTill`, `set_token` decodes the token's `exp` claim; if the decode raises,
`_expires_at` becomes absent (and `is_token_expiring` is then true for every
clock value); if the decode yields a truthy `exp`, that value is stored; if the
decode yields no truthy `exp`, `_expires_at` keeps its previous value. DTO
payloads never trigger the decode: all three fields are taken from the DTO
as-is. -/
theorem set_token_dict_expiry_fallback
    (decode : String → JwtDecodeResult) (d : TokenDict) (st : TMState)
    (hvt : d.validTill = none) (htok : pyTruthyOpt d.token = true) :
    set_token decode (TokenInput.dict d) st
      = some ⟨d.token, d.refreshToken,
          (match decode (Option.getD d.token "") with
           | JwtDecodeResult.raises => none
           | JwtDecodeResult.ok exp =>
             if pyTruthyIntOpt exp then exp else st.expiresAt)⟩ ∧
    (decode (Option.getD d.token "") = JwtDecodeResult.raises →
      ∀ now : Int,
        is_token_expiring now ⟨d.token, d.refreshToken, none⟩ = true) ∧
    (∀ (d2 : JWTTokenPublicDto) (st2 : TMState),
      set_token decode (TokenInput.dto d2) st2 = some (applyDto d2 st2)) := by
  refine ⟨?_, ?_, fun d2 st2 => rfl⟩
  · simp only [set_token, applyDict, hvt, htok, if_true, Option.some.injEq]
    cases hd : decode (Option.getD d.token "") with
    | raises => rfl
    | ok exp =>
      cases he : pyTruthyIntOpt exp with
      | false => simp [he]
      | true => simp [he]
  · intro _ now
    simp [is_token_expiring]

/-- Witness for `set_token_dict_expiry_fallback` at a concrete payload whose
JWT decode raises. -/
theorem set_token_dict_expiry_fallback_witness :
    ((⟨some "t", none, none⟩ : TokenDict).validTill = none ∧
      pyTruthyOpt (⟨some "t", none, none⟩ : TokenDict).token = true) ∧
    (set_token (fun _ => JwtDecodeResult.raises)
        (TokenInput.dict ⟨some "t", none, none⟩) emptyTM
      = some ⟨some "t", none,
          (match (fun _ => JwtDecodeResult.raises) (Option.getD (some "t") "") with
           | JwtDecodeResult.raises => none
           | JwtDecodeResult.ok exp =>
             if pyTruthyIntOpt exp then exp else emptyTM.expiresAt)⟩ ∧
      ((fun _ => JwtDecodeResult.raises) (Option.getD (some "t") "")
          = JwtDecodeResult.raises →
        ∀ now : Int,
          is_token_expiring now ⟨some "t", none, none⟩ = true) ∧
      (∀ (d2 : JWTTokenPublicDto) (st2 : TMState),
        set_token (fun _ => JwtDecodeResult.raises) (TokenInput.dto d2) st2
          = some (applyDto d2 st2))) :=
  ⟨⟨rfl, by decide⟩,
    set_token_dict_expiry_fallback (fun _ => JwtDecodeResult.raises)
      ⟨some "t", none, none⟩ emptyTM rfl (by decide)⟩

/-- C10: calling `set_token` with an argument that is neither a
`JWTTokenPublicDto` nor a `dict` never returns: the unsupported-type branch
calls `_clear_tokens → clear_tokens`, which re-acquires the non-reentrant
`threading.Lock` already held by `set_token`, deadlocking the caller instead
of clearing the fields and returning. -/
theorem set_token_unsupported_type_deadlock
    (decode : String → JwtDecodeResult) (st : TMState) :
    set_token decode TokenInput.other st = none := rfl

/-! ## Authentication services

Two divergent `AuthService` implementations exist in the repository:

* the exception-typed variant (`client/auth/auth_service_impl.py`), using the
  error taxonomy of `client/auth/exceptions.py` — modelled by the `_client`
  definitions;
* the GUID-scoped variant (`auth/auth_service_impl.py`), whose `_login` and
  `_refresh_token` swallow `requests.RequestException` into `False` — modelled
  by the `_guid` definitions.

The `username`/`password` parameters stand for the effective
`self.username`/`self.password` fields, i.e. after the constructor's
environment-variable fallback (`arg or os.getenv(...)`). -/

/-- The kind of `requests.RequestException` raised by a `requests.post` call,
as distinguished by `handle_requests_exception` in
`client/auth/exceptions.py`. -/
inductive ReqExcKind
  | connectionError
  | timeoutError
  | httpError (status : Option Nat)
  | otherException
  deriving DecidableEq, Repr

/-- What `JWTTokenPublicDto.model_validate(response.json())` does on a 200
response body: succeeds with a DTO, or `response.json()` raises a
`requests.JSONDecodeError` (a `RequestException`), or pydantic validation
raises a `ValidationError` (not a `RequestException`). Modelled from the spec
for the absent `models.py`: the DTO's fields are those of spec §6. -/
inductive ParseOutcome
  | ok (d : JWTTokenPublicDto)
  | jsonError
  | validationError
  deriving DecidableEq, Repr

/-- Oracle for one `requests.post` to an identity endpoint: an HTTP response
with a status and body-parse behaviour, or a raised requests exception. -/
inductive HttpOutcome
  | resp (status : Nat) (parse : ParseOutcome)
  | exc (k : ReqExcKind)
  deriving DecidableEq, Repr

/-- The errors the authentication core can surface, mirroring the class
hierarchy of `client/auth/exceptions.py` plus the raw pydantic
`ValidationError` that the GUID variant lets escape. -/
inductive AuthFailKind
  | parseError
  | httpStatus (code : Nat)
  | exhausted
  deriving DecidableEq, Repr

/-- Typed failure surfaced by the core. `tokenExpired`, `invalidCredentials`
and `authenticationError _` correspond to `AuthenticationError` and its
subclasses; `networkError` and `apiError` are `BIMPortalError` subclasses that
are not `AuthenticationError`; `rawValidationError` is an escaping pydantic
exception, outside the repository's taxonomy altogether. -/
inductive CoreError
  | networkError
  | tokenExpired
  | invalidCredentials
  | authenticationError (kind : AuthFailKind)
  | apiError (code : Nat)
  | rawValidationError
  deriving DecidableEq, Repr

/-- Whether an error is an instance of `AuthenticationError` (the class or a
subclass) in the hierarchy of `client/auth/exceptions.py`. -/
def isAuthenticationErrorClass : CoreError → Bool
  | CoreError.tokenExpired => true
  | CoreError.invalidCredentials => true
  | CoreError.authenticationError _ => true
  | _ => false

/-- `handle_requests_exception` (`client/auth/exceptions.py`): connection and
timeout failures become `NetworkError`; an `HTTPError` carrying a response
becomes `AuthenticationError` (401/403) or `APIError`; everything else falls
through to the generic `NetworkError`. -/
def handle_requests_exception : ReqExcKind → CoreError
  | ReqExcKind.connectionError => CoreError.networkError
  | ReqExcKind.timeoutError => CoreError.networkError
  | ReqExcKind.httpError (some s) =>
    if s = 401 ∨ s = 403 then CoreError.authenticationError (AuthFailKind.httpStatus s)
    else CoreError.apiError s
  | ReqExcKind.httpError none => CoreError.networkError
  | ReqExcKind.otherException => CoreError.networkError

/-- The network endpoints an `AuthService` can hit. -/
inductive Call
  | login
  | refresh
  deriving DecidableEq, Repr

/-- `AuthService._refresh_token`, exception-typed variant: without a truthy
refresh token it raises `TokenExpiredError` before any network call; a 200
response is parsed into the store (parse failure raises `TokenExpiredError`);
a non-200 response clears the store and raises `TokenExpiredError` (401/403)
or `AuthenticationError`; a requests exception is mapped by
`handle_requests_exception` and raised without clearing. -/
def refresh_token_client (oracle : HttpOutcome) (st : TMState) :
    Except CoreError Unit × TMState × List Call :=
  if pyTruthyOpt (get_refresh_token st) = false then
    (Except.error CoreError.tokenExpired, st, [])
  else
    match oracle with
    | HttpOutcome.resp status parse =>
      if status = 200 then
        match parse with
        | ParseOutcome.ok d => (Except.ok (), applyDto d st, [Call.refresh])
        | _ => (Except.error CoreError.tokenExpired, st, [Call.refresh])
      else
        let st1 := clear_tokens st
        if status = 401 ∨ status = 403 then
          (Except.error CoreError.tokenExpired, st1, [Call.refresh])
        else
          (Except.error (CoreError.authenticationError (AuthFailKind.httpStatus status)),
            st1, [Call.refresh])
    | HttpOutcome.exc k =>
      (Except.error (handle_requests_exception k), st, [Call.refresh])

/-- `AuthService._login`, exception-typed variant: a 200 response is parsed
into the store (parse failure raises `AuthenticationError` with a parse
message, leaving the store untouched); a non-200 response clears the store
and raises `InvalidCredentialsError` (401) or `AuthenticationError`
(`create_auth_error_from_response`); a requests exception clears the store
and raises the mapped error. -/
def login_client (oracle : HttpOutcome) (st : TMState) :
    Except CoreError Unit × TMState × List Call :=
  match oracle with
  | HttpOutcome.resp status parse =>
    if status = 200 then
      match parse with
      | ParseOutcome.ok d => (Except.ok (), applyDto d st, [Call.login])
      | _ =>
        (Except.error (CoreError.authenticationError AuthFailKind.parseError),
          st, [Call.login])
    else
      let st1 := clear_tokens st
      if status = 401 then (Except.error CoreError.invalidCredentials, st1, [Call.login])
      else
        (Except.error (CoreError.authenticationError (AuthFailKind.httpStatus status)),
          st1, [Call.login])
  | HttpOutcome.exc k =>
    (Except.error (handle_requests_exception k), clear_tokens st, [Call.login])

/-- `AuthService.get_valid_token`, exception-typed variant
(`client/auth/auth_service_impl.py`): anonymous short-circuit, cached-token
fast path, then refresh with `except TokenExpiredError` falling through to
login and `except NetworkError: raise`; every other refresh error and every
login error propagates. The result triple is (outcome, final store state,
network calls made). -/
def get_valid_token_client (username password : Option String)
    (refreshO loginO : HttpOutcome) (now : Int) (st : TMState) :
    Except CoreError (Option String) × TMState × List Call :=
  if pyTruthyOpt username = false ∨ pyTruthyOpt password = false then
    (Except.ok none, st, [])
  else if is_token_expiring now st = false then
    (Except.ok (get_access_token st), st, [])
  else
    match refresh_token_client refreshO st with
    | (Except.ok _, st1, c1) => (Except.ok (get_access_token st1), st1, c1)
    | (Except.error CoreError.tokenExpired, st1, c1) =>
      match login_client loginO st1 with
      | (Except.ok _, st2, c2) => (Except.ok (get_access_token st2), st2, c1 ++ c2)
      | (Except.error e2, st2, c2) => (Except.error e2, st2, c1 ++ c2)
    | (Except.error e, st1, c1) => (Except.error e, st1, c1)

/-- `AuthService._refresh_token`, GUID-scoped variant
(`auth/auth_service_impl.py`): returns `False` without a refresh token, on a
non-200 response (clearing the store), and on any `requests.RequestException`
(including a `JSONDecodeError` from `response.json()`, without clearing); a
pydantic `ValidationError` from `model_validate` escapes uncaught. -/
def refresh_token_guid (oracle : HttpOutcome) (st : TMState) :
    Except CoreError Bool × TMState × List Call :=
  if pyTruthyOpt (get_refresh_token st) = false then (Except.ok false, st, [])
  else
    match oracle with
    | HttpOutcome.resp status parse =>
      if status = 200 then
        match parse with
        | ParseOutcome.ok d => (Except.ok true, applyDto d st, [Call.refresh])
        | ParseOutcome.jsonError => (Except.ok false, st, [Call.refresh])
        | ParseOutcome.validationError =>
          (Except.error CoreError.rawValidationError, st, [Call.refresh])
      else (Except.ok false, clear_tokens st, [Call.refresh])
    | HttpOutcome.exc _ => (Except.ok false, st, [Call.refresh])

/-- `AuthService._login`, GUID-scoped variant: returns `False` on a non-200
response and on any `requests.RequestException` (clearing the store in both
cases, and also when `response.json()` raises); a pydantic `ValidationError`
escapes uncaught without clearing. -/
def login_guid (oracle : HttpOutcome) (st : TMState) :
    Except CoreError Bool × TMState × List Call :=
  match oracle with
  | HttpOutcome.resp status parse =>
    if status = 200 then
      match parse with
      | ParseOutcome.ok d => (Except.ok true, applyDto d st, [Call.login])
      | ParseOutcome.jsonError => (Except.ok false, clear_tokens st, [Call.login])
      | ParseOutcome.validationError =>
        (Except.error CoreError.rawValidationError, st, [Call.login])
    else (Except.ok false, clear_tokens st, [Call.login])
  | HttpOutcome.exc _ => (Except.ok false, clear_tokens st, [Call.login])

/-- `AuthService.get_valid_token`, GUID-scoped variant: anonymous
short-circuit, cached-token fast path, refresh, then login; when both return
`False` it raises its local `AuthenticationError` ("Failed to authenticate.
Please check credentials and GUID."). -/
def get_valid_token_guid (username password : Option String)
    (refreshO loginO : HttpOutcome) (now : Int) (st : TMState) :
    Except CoreError (Option String) × TMState × List Call :=
  if pyTruthyOpt username = false ∨ pyTruthyOpt password = false then
    (Except.ok none, st, [])
  else if is_token_expiring now st = false then
    (Except.ok (get_access_token st), st, [])
  else
    match refresh_token_guid refreshO st with
    | (Except.ok true, st1, c1) => (Except.ok (get_access_token st1), st1, c1)
    | (Except.ok false, st1, c1) =>
      match login_guid loginO st1 with
      | (Except.ok true, st2, c2) => (Except.ok (get_access_token st2), st2, c1 ++ c2)
      | (Except.ok false, st2, c2) =>
        (Except.error (CoreError.authenticationError AuthFailKind.exhausted),
          st2, c1 ++ c2)
      | (Except.error e2, st2, c2) => (Except.error e2, st2, c1 ++ c2)
    | (Except.error e, st1, c1) => (Except.error e, st1, c1)

/-- C3 counterexample: in the GUID-scoped `AuthService`, a refresh attempt
that fails with a connection error (a network-class failure) does not
propagate: `_refresh_token` swallows the `requests.RequestException` into
`False` and `get_valid_token` falls through to a fresh login, here returning
the login's token with both endpoints called. -/
theorem guid_refresh_netfail_cex :
    get_valid_token_guid (some "u") (some "p")
        (HttpOutcome.exc ReqExcKind.connectionError)
        (HttpOutcome.resp 200 (ParseOutcome.ok ⟨some "newtok", some "nr", some 77777⟩))
        0 ⟨none, some "r", none⟩
      = (Except.ok (some "newtok"), ⟨some "newtok", some "nr", some 77777⟩,
          [Call.refresh, Call.login]) := by
  rfl

/-- C3 amended: in the exception-typed `AuthService`
(`client/auth/auth_service_impl.py`, the variant the spec follows), whenever
the refresh attempt inside `get_valid_token` fails with a network-class error
(connection failure or timeout), `get_valid_token` propagates `NetworkError`
to its caller, makes no login call, and leaves the store unchanged; the
GUID-scoped variant instead falls through to login. -/
theorem refresh_network_error_propagates
    (u p : Option String) (k : ReqExcKind) (loginO : HttpOutcome)
    (now : Int) (st : TMState)
    (hu : pyTruthyOpt u = true) (hp : pyTruthyOpt p = true)
    (hexp : is_token_expiring now st = true)
    (href : pyTruthyOpt (get_refresh_token st) = true)
    (hk : k = ReqExcKind.connectionError ∨ k = ReqExcKind.timeoutError) :
    get_valid_token_client u p (HttpOutcome.exc k) loginO now st
      = (Except.error CoreError.networkError, st, [Call.refresh]) := by
  have hcond : ¬(pyTruthyOpt u = false ∨ pyTruthyOpt p = false) := by
    simp [hu, hp]
  have hrt : refresh_token_client (HttpOutcome.exc k) st
      = (Except.error CoreError.networkError, st, [Call.refresh]) := by
    rcases hk with rfl | rfl <;>
      simp [refresh_token_client, href, handle_requests_exception]
  simp [get_valid_token_client, hcond, hexp, hrt]

/-- Witness for `refresh_network_error_propagates`: configured credentials, a
stored refresh token, a missing access token (hence expiring), and a
connection error on the refresh endpoint. -/
theorem refresh_network_error_propagates_witness :
    (pyTruthyOpt (some "u") = true ∧ pyTruthyOpt (some "p") = true ∧
      is_token_expiring 0 ⟨none, some "r", none⟩ = true ∧
      pyTruthyOpt (get_refresh_token ⟨none, some "r", none⟩) = true ∧
      (ReqExcKind.connectionError = ReqExcKind.connectionError ∨
        ReqExcKind.connectionError = ReqExcKind.timeoutError)) ∧
    get_valid_token_client (some "u") (some "p")
        (HttpOutcome.exc ReqExcKind.connectionError)
        (HttpOutcome.resp 200 (ParseOutcome.ok ⟨some "x", none, none⟩))
        0 ⟨none, some "r", none⟩
      = (Except.error CoreError.networkError, ⟨none, some "r", none⟩,
          [Call.refresh]) :=
  ⟨⟨by decide, by decide, by decide, by decide, Or.inl rfl⟩,
    refresh_network_error_propagates (some "u") (some "p")
      ReqExcKind.connectionError
      (HttpOutcome.resp 200 (ParseOutcome.ok ⟨some "x", none, none⟩))
      0 ⟨none, some "r", none⟩ (by decide) (by decide) (by decide) (by decide)
      (Or.inl rfl)⟩

/-- C5 counterexample: in the GUID-scoped `AuthService`, a login endpoint
answering HTTP 200 with a body that fails DTO validation makes
`get_valid_token` fail with a raw pydantic `ValidationError` — not an
`AuthenticationError`-class error — though no token is stored. -/
theorem guid_login_validation_cex :
    get_valid_token_guid (some "u") (some "p")
        (HttpOutcome.resp 500 ParseOutcome.jsonError)
        (HttpOutcome.resp 200 ParseOutcome.validationError) 0 emptyTM
      = (Except.error CoreError.rawValidationError, emptyTM, [Call.login]) ∧
    isAuthenticationErrorClass CoreError.rawValidationError = false := by
  exact ⟨rfl, rfl⟩

/-- C5 amended: in the exception-typed `AuthService` (the variant the spec
follows), when the login endpoint responds HTTP 200 with a body that cannot be
parsed into the token payload (either `response.json()` or DTO validation
fails), `get_valid_token` raises `AuthenticationError` indicating a parse
error, stores nothing (the store is returned unchanged), and returns no token;
the GUID-scoped variant also stores nothing but lets a raw validation
exception escape. -/
theorem login_parse_error_client
    (u p : Option String) (refreshO : HttpOutcome) (parse : ParseOutcome)
    (now : Int) (st : TMState)
    (hu : pyTruthyOpt u = true) (hp : pyTruthyOpt p = true)
    (hexp : is_token_expiring now st = true)
    (href : pyTruthyOpt (get_refresh_token st) = false)
    (hparse : parse = ParseOutcome.jsonError ∨ parse = ParseOutcome.validationError) :
    get_valid_token_client u p refreshO (HttpOutcome.resp 200 parse) now st
      = (Except.error (CoreError.authenticationError AuthFailKind.parseError),
          st, [Call.login]) := by
  have hcond : ¬(pyTruthyOpt u = false ∨ pyTruthyOpt p = false) := by
    simp [hu, hp]
  have hrt : refresh_token_client refreshO st
      = (Except.error CoreError.tokenExpired, st, []) := by
    simp [refresh_token_client, href]
  have hlg : login_client (HttpOutcome.resp 200 parse) st
      = (Except.error (CoreError.authenticationError AuthFailKind.parseError),
          st, [Call.login]) := by
    rcases hparse with rfl | rfl <;> simp [login_client]
  simp [get_valid_token_client, hcond, hexp, hrt, hlg]

/-- Witness for `login_parse_error_client`: empty store (no refresh token),
configured credentials, and a 200 login response whose body fails JSON
decoding. -/
theorem login_parse_error_client_witness :
    (pyTruthyOpt (some "u") = true ∧ pyTruthyOpt (some "p") = true ∧
      is_token_expiring 0 emptyTM = true ∧
      pyTruthyOpt (get_refresh_token emptyTM) = false ∧
      (ParseOutcome.jsonError = ParseOutcome.jsonError ∨
        ParseOutcome.jsonError = ParseOutcome.validationError)) ∧
    get_valid_token_client (some "u") (some "p")
        (HttpOutcome.resp 500 ParseOutcome.jsonError)
        (HttpOutcome.resp 200 ParseOutcome.jsonError) 0 emptyTM
      = (Except.error (CoreError.authenticationError AuthFailKind.parseError),
          emptyTM, [Call.login]) :=
  ⟨⟨by decide, by decide, by decide, by decide, Or.inl rfl⟩,
    login_parse_error_client (some "u") (some "p")
      (HttpOutcome.resp 500 ParseOutcome.jsonError) ParseOutcome.jsonError
      0 emptyTM (by decide) (by decide) (by decide) (by decide) (Or.inl rfl)⟩

/-- C6: for every `AuthService` whose effective username or password is
Python-falsy (argument and environment fallback both absent or empty), both
variants of `get_valid_token` return `None` immediately: no login or refresh
network call is made and the token store is unchanged. -/
theorem no_credentials_no_network
    (u p : Option String) (refreshO loginO : HttpOutcome) (now : Int)
    (st : TMState)
    (h : pyTruthyOpt u = false ∨ pyTruthyOpt p = false) :
    get_valid_token_client u p refreshO loginO now st = (Except.ok none, st, []) ∧
    get_valid_token_guid u p refreshO loginO now st = (Except.ok none, st, []) := by
  constructor <;> simp [get_valid_token_client, get_valid_token_guid, h]

/-- Witness for `no_credentials_no_network`: username absent, password set. -/
theorem no_credentials_no_network_witness :
    (pyTruthyOpt none = false ∨ pyTruthyOpt (some "p") = false) ∧
    (get_valid_token_client none (some "p")
        (HttpOutcome.resp 200 ParseOutcome.jsonError)
        (HttpOutcome.resp 200 ParseOutcome.jsonError) 0 emptyTM
      = (Except.ok none, emptyTM, []) ∧
      get_valid_token_guid none (some "p")
        (HttpOutcome.resp 200 ParseOutcome.jsonError)
        (HttpOutcome.resp 200 ParseOutcome.jsonError) 0 emptyTM
      = (Except.ok none, emptyTM, [])) :=
  ⟨Or.inl (by decide),
    no_credentials_no_network none (some "p")
      (HttpOutcome.resp 200 ParseOutcome.jsonError)
      (HttpOutcome.resp 200 ParseOutcome.jsonError) 0 emptyTM
      (Or.inl (by decide))⟩

/-! ## Request-path header construction (`_get_auth_headers`) -/

/-- What `self.auth_service.get_valid_token()` does when called from
`_get_auth_headers`: returns an optional token, raises an
`AuthenticationError`-class error, or raises something else (e.g.
`NetworkError`). -/
inductive TokenFetch
  | ok (t : Option String)
  | raisesAuthError
  | raisesOther
  deriving DecidableEq, Repr

/-- The headers a request is sent with; the two constant entries (`accept`,
`Content-Type`) are omitted, keeping only the `Authorization` entry. -/
structure RequestHeaders where
  authorization : Option String
  deriving DecidableEq, Repr

/-- `BaseClient._get_auth_headers` (identical in
`EnhancedBimPortalClient._get_auth_headers`): attach `Bearer <token>` when a
truthy token is returned; on `AuthenticationError` log a warning and proceed
with public access (no `Authorization` header); any other exception
propagates. -/
def get_auth_headers : TokenFetch → Except Unit RequestHeaders
  | TokenFetch.ok t =>
    if pyTruthyOpt t then
      Except.ok ⟨some ("Bearer " ++ Option.getD t "")⟩
    else Except.ok ⟨none⟩
  | TokenFetch.raisesAuthError => Except.ok ⟨none⟩
  | TokenFetch.raisesOther => Except.error ()

/-- C4 counterexample: with credentials configured and an empty store, a 401
from the login endpoint makes `get_valid_token` raise
`InvalidCredentialsError` (an `AuthenticationError`); `_get_auth_headers`
catches precisely that class and returns anonymous headers, so the request
path silently proceeds unauthenticated instead of surfacing the typed
error. -/
theorem auth_headers_swallow_cex :
    get_valid_token_client (some "user") (some "pw")
        (HttpOutcome.resp 500 ParseOutcome.jsonError)
        (HttpOutcome.resp 401 ParseOutcome.jsonError) 0 emptyTM
      = (Except.error CoreError.invalidCredentials, emptyTM, [Call.login]) ∧
    isAuthenticationErrorClass CoreError.invalidCredentials = true ∧
    get_auth_headers TokenFetch.raisesAuthError = Except.ok ⟨none⟩ := by
  exact ⟨rfl, rfl, rfl⟩

/-- C4 amended: `get_valid_token` itself surfaces typed errors, but the
request path does not: `_get_auth_headers` converts every
`AuthenticationError`-class failure into anonymous headers (no
`Authorization` entry) and proceeds; only non-`AuthenticationError`
exceptions such as `NetworkError` propagate, and a truthy token is attached
as `Bearer <token>`. -/
theorem auth_headers_cases :
    (∀ t : Option String,
      get_auth_headers (TokenFetch.ok t)
        = (if pyTruthyOpt t then
            Except.ok ⟨some ("Bearer " ++ Option.getD t "")⟩
          else Except.ok ⟨none⟩)) ∧
    get_auth_headers TokenFetch.raisesAuthError = Except.ok ⟨none⟩ ∧
    get_auth_headers TokenFetch.raisesOther = Except.error () :=
  ⟨fun _ => rfl, rfl, rfl⟩

/-! ## The authenticated request executor (`_make_authenticated_request`)

The loop `for attempt in range(AUTH_RETRY_LIMIT + 1)` is embedded as a
fuel recursion: `execAux` is called with `fuel = limit + 1` and
`attempt = 0`, and running out of fuel corresponds to falling off the end of
the loop (`raise RuntimeError("Exited retry loop unexpectedly.")`). The
header-acquisition step `_get_auth_headers` is an oracle
`A : TMState → Option String × TMState` giving the token attached to the
attempt and the store state it leaves behind (its internal login/refresh
calls are not counted here; the claim counts the executor's own HTTP calls).
The transport `T : Nat → Option String → TransportResult` folds the fixed
method, URL and JSON body into the oracle, keyed by attempt index. -/

/-- An `httpx` response, reduced to its status code. -/
structure HttpResponse where
  status : Nat
  deriving DecidableEq, Repr

/-- Outcome of one `self._httpx_client.request(...)` call: a response, or a
raised `httpx.HTTPError` (network-level failure). -/
inductive TransportResult
  | ok (r : HttpResponse)
  | netErr
  deriving DecidableEq, Repr

/-- One iteration of the retry loop: the store state on entry (before
`_get_auth_headers` runs), the token attached to the request, and the
transport outcome. -/
structure AttemptRec where
  stateBefore : TMState
  tokenUsed : Option String
  result : TransportResult
  deriving DecidableEq, Repr

/-- How `_make_authenticated_request` terminates. `raisedStatus` is the
`httpx.HTTPStatusError` from `response.raise_for_status()`, re-raised on the
final attempt; `raisedNet` is a re-raised `httpx.HTTPError`; `runtimeError`
is the defensive `RuntimeError` after the loop. -/
inductive ExecOutcome
  | returned (r : HttpResponse)
  | raisedStatus (r : HttpResponse)
  | raisedNet
  | runtimeError
  deriving DecidableEq, Repr

/-- The body of `_make_authenticated_request`'s loop. Per iteration: build
headers (`A`), issue the call (`T`); on 401/403 return or `raise_for_status`
if this is the final attempt, else clear the token store and continue; on
another status, `raise_for_status` when configured and the status is ≥ 400
(the raised error is caught by `except httpx.HTTPError` and swallowed on
non-final attempts), else return the response; a network error is re-raised
only on the final attempt. -/
def execAux (raiseFlag : Bool) (limit : Nat)
    (A : TMState → Option String × TMState)
    (T : Nat → Option String → TransportResult) :
    Nat → Nat → TMState → ExecOutcome × List AttemptRec
  | _, 0, _ => (ExecOutcome.runtimeError, [])
  | attempt, fuel + 1, st =>
    let tok := (A st).1
    let st1 := (A st).2
    match T attempt tok with
    | TransportResult.netErr =>
      if limit ≤ attempt then
        (ExecOutcome.raisedNet, [⟨st, tok, TransportResult.netErr⟩])
      else
        let x := execAux raiseFlag limit A T (attempt + 1) fuel st1
        (x.1, ⟨st, tok, TransportResult.netErr⟩ :: x.2)
    | TransportResult.ok r =>
      if r.status = 401 ∨ r.status = 403 then
        if limit ≤ attempt then
          ((if raiseFlag then ExecOutcome.raisedStatus r else ExecOutcome.returned r),
            [⟨st, tok, TransportResult.ok r⟩])
        else
          let x := execAux raiseFlag limit A T (attempt + 1) fuel (clear_tokens st1)
          (x.1, ⟨st, tok, TransportResult.ok r⟩ :: x.2)
      else if raiseFlag = true ∧ 400 ≤ r.status then
        if limit ≤ attempt then
          (ExecOutcome.raisedStatus r, [⟨st, tok, TransportResult.ok r⟩])
        else
          let x := execAux raiseFlag limit A T (attempt + 1) fuel st1
          (x.1, ⟨st, tok, TransportResult.ok r⟩ :: x.2)
      else (ExecOutcome.returned r, [⟨st, tok, TransportResult.ok r⟩])

/-- `BaseClient._make_authenticated_request` (identical in
`EnhancedBimPortalClient`): run the loop from attempt 0 with
`AUTH_RETRY_LIMIT + 1` iterations available (`limit` generalises the
configured `AUTH_RETRY_LIMIT`). -/
def make_authenticated_request (limit : Nat) (raiseFlag : Bool)
    (A : TMState → Option String × TMState)
    (T : Nat → Option String → TransportResult) (st : TMState) :
    ExecOutcome × List AttemptRec :=
  execAux raiseFlag limit A T 0 (limit + 1) st

/-- The first attempt record of a run with fuel available is the entry state,
the token `A` produces from it, and that attempt's transport outcome. -/
theorem execAux_head (raiseFlag : Bool) (limit : Nat)
    (A : TMState → Option String × TMState)
    (T : Nat → Option String → TransportResult)
    (a f : Nat) (st : TMState) (hf : 0 < f) :
    ∃ rest, (execAux raiseFlag limit A T a f st).2
      = ⟨st, (A st).1, T a (A st).1⟩ :: rest := by
  obtain ⟨f1, rfl⟩ : ∃ f1, f = f1 + 1 := ⟨f - 1, by omega⟩
  cases hT : T a (A st).1 with
  | netErr =>
    by_cases hfin : limit ≤ a <;>
      simp [execAux, hT, hfin]
  | ok r =>
    by_cases h401 : r.status = 401 ∨ r.status = 403
    · by_cases hfin : limit ≤ a <;>
        simp [execAux, hT, h401, hfin]
    · by_cases hraise : raiseFlag = true ∧ 400 ≤ r.status
      · by_cases hfin : limit ≤ a <;>
          simp [execAux, hT, h401, hraise, hfin]
      · simp [execAux, hT, h401, hraise]

/-- Under a transport that answers 401/403 on every attempt, the loop starting
at attempt `a` with fuel `f = limit + 1 - a` makes exactly `f` calls and ends
on the final attempt's response. -/
theorem execAux_all_auth_fail (raiseFlag : Bool) (limit : Nat)
    (A : TMState → Option String × TMState)
    (T : Nat → Option String → TransportResult)
    (hT : ∀ i tok, ∃ r, T i tok = TransportResult.ok r ∧
      (r.status = 401 ∨ r.status = 403)) :
    ∀ (f a : Nat) (st : TMState), a + f = limit + 1 → a ≤ limit →
    (execAux raiseFlag limit A T a f st).2.length = f ∧
    ∃ rec r, (execAux raiseFlag limit A T a f st).2[f - 1]? = some rec ∧
      rec.result = TransportResult.ok r ∧
      (r.status = 401 ∨ r.status = 403) ∧
      (execAux raiseFlag limit A T a f st).1
        = (if raiseFlag then ExecOutcome.raisedStatus r
           else ExecOutcome.returned r) := by
  intro f
  induction f with
  | zero => intro a st hsum hle; omega
  | succ f ih =>
    intro a st hsum hle
    obtain ⟨r, hr, hs⟩ := hT a (A st).1
    by_cases hfin : limit ≤ a
    · have ha : a = limit := by omega
      have hf0 : f = 0 := by omega
      subst ha hf0
      refine ⟨?_, ⟨st, (A st).1, TransportResult.ok r⟩, r, ?_, rfl, hs, ?_⟩ <;>
        simp [execAux, hr, hs, le_refl]
    · have hlt : a < limit := by omega
      have hf1 : 0 < f := by omega
      obtain ⟨hlen, rec, r2, hget, hres, hs2, hout⟩ :=
        ih (a + 1) (clear_tokens (A st).2) (by omega) (by omega)
      obtain ⟨f1, rfl⟩ : ∃ f1, f = f1 + 1 := ⟨f - 1, by omega⟩
      have hunf : execAux raiseFlag limit A T a (f1 + 1 + 1) st
          = ((execAux raiseFlag limit A T (a + 1) (f1 + 1) (clear_tokens (A st).2)).1,
            ⟨st, (A st).1, TransportResult.ok r⟩
              :: (execAux raiseFlag limit A T (a + 1) (f1 + 1) (clear_tokens (A st).2)).2) := by
        simp [execAux, hr, hs, hfin]
      rw [hunf]
      refine ⟨by simp [hlen], rec, r2, ?_, hres, hs2, hout⟩
      simpa using hget

/-- C1: whenever the transport returns status 401 or 403 on every attempt,
`_make_authenticated_request` issues exactly `limit + 1` HTTP calls
(`AUTH_RETRY_LIMIT + 1`, i.e. 2 with the default `AUTH_RETRY_LIMIT = 1`),
then terminates, returning the final 401/403 response as-is — or raising the
`raise_for_status` error when `raise_on_unexpected_status` is true — and
never makes more attempts. -/
theorem request_retry_bound (limit : Nat) (raiseFlag : Bool)
    (A : TMState → Option String × TMState)
    (T : Nat → Option String → TransportResult) (st : TMState)
    (hT : ∀ i tok, ∃ r, T i tok = TransportResult.ok r ∧
      (r.status = 401 ∨ r.status = 403)) :
    (make_authenticated_request limit raiseFlag A T st).2.length = limit + 1 ∧
    ∃ rec r, (make_authenticated_request limit raiseFlag A T st).2[limit]? = some rec ∧
      rec.result = TransportResult.ok r ∧
      (r.status = 401 ∨ r.status = 403) ∧
      (make_authenticated_request limit raiseFlag A T st).1
        = (if raiseFlag then ExecOutcome.raisedStatus r
           else ExecOutcome.returned r) := by
  have h := execAux_all_auth_fail raiseFlag limit A T hT (limit + 1) 0 st
    (by omega) (by omega)
  simpa [make_authenticated_request] using h

/-- Witness for `request_retry_bound`: default `AUTH_RETRY_LIMIT = 1`, a
transport that always answers 401, a pass-through header oracle, and an empty
store — exactly 2 attempts are made. -/
theorem request_retry_bound_witness :
    (∀ (i : Nat) (tok : Option String), ∃ r,
      (fun (_ : Nat) (_ : Option String) => TransportResult.ok ⟨401⟩) i tok
        = TransportResult.ok r ∧ (r.status = 401 ∨ r.status = 403)) ∧
    ((make_authenticated_request AUTH_RETRY_LIMIT false
        (fun st => (get_access_token st, st))
        (fun _ _ => TransportResult.ok ⟨401⟩) emptyTM).2.length
      = AUTH_RETRY_LIMIT + 1 ∧
    ∃ rec r, (make_authenticated_request AUTH_RETRY_LIMIT false
        (fun st => (get_access_token st, st))
        (fun _ _ => TransportResult.ok ⟨401⟩) emptyTM).2[AUTH_RETRY_LIMIT]? = some rec ∧
      rec.result = TransportResult.ok r ∧
      (r.status = 401 ∨ r.status = 403) ∧
      (make_authenticated_request AUTH_RETRY_LIMIT false
        (fun st => (get_access_token st, st))
        (fun _ _ => TransportResult.ok ⟨401⟩) emptyTM).1
        = (if false then ExecOutcome.raisedStatus r
           else ExecOutcome.returned r)) :=
  ⟨fun _ _ => ⟨⟨401⟩, rfl, Or.inl rfl⟩,
    request_retry_bound AUTH_RETRY_LIMIT false
      (fun st => (get_access_token st, st))
      (fun _ _ => TransportResult.ok ⟨401⟩) emptyTM
      (fun _ _ => ⟨⟨401⟩, rfl, Or.inl rfl⟩)⟩

/-- In any run of the retry loop, an attempt answered 401/403 that is followed
by another attempt hands that next attempt a fully cleared store. -/
theorem execAux_clear_adjacent (raiseFlag : Bool) (limit : Nat)
    (A : TMState → Option String × TMState)
    (T : Nat → Option String → TransportResult) :
    ∀ (f a : Nat) (st : TMState) (i : Nat) (rec1 rec2 : AttemptRec)
      (r : HttpResponse),
    (execAux raiseFlag limit A T a f st).2[i]? = some rec1 →
    (execAux raiseFlag limit A T a f st).2[i + 1]? = some rec2 →
    rec1.result = TransportResult.ok r →
    (r.status = 401 ∨ r.status = 403) →
    rec2.stateBefore = emptyTM := by
  intro f
  induction f with
  | zero =>
    intro a st i rec1 rec2 r hget1 hget2 hres hs
    simp [execAux] at hget1
  | succ f ih =>
    intro a st i rec1 rec2 r hget1 hget2 hres hs
    cases hT : T a (A st).1 with
    | netErr =>
      by_cases hfin : limit ≤ a
      · simp [execAux, hT, hfin] at hget1 hget2
      · simp only [execAux, hT, if_neg hfin] at hget1 hget2
        cases i with
        | zero =>
          simp at hget1
          rw [← hget1] at hres
          cases hres
        | succ i0 =>
          simp only [List.getElem?_cons_succ] at hget1 hget2
          exact ih (a + 1) (A st).2 i0 rec1 rec2 r hget1 hget2 hres hs
    | ok r0 =>
      by_cases h401 : r0.status = 401 ∨ r0.status = 403
      · by_cases hfin : limit ≤ a
        · simp [execAux, hT, h401, hfin] at hget1 hget2
        · simp only [execAux, hT, if_pos h401, if_neg hfin] at hget1 hget2
          cases i with
          | zero =>
            simp only [List.getElem?_cons_succ, List.getElem?_cons_zero,
              Option.some.injEq] at hget1 hget2
            have hpos : 0 < f := by
              by_contra hf0
              have : f = 0 := by omega
              subst this
              simp [execAux] at hget2
            obtain ⟨rest, hrest⟩ := execAux_head raiseFlag limit A T (a + 1) f
              (clear_tokens (A st).2) hpos
            rw [hrest] at hget2
            simp at hget2
            rw [← hget2]
            rfl
          | succ i0 =>
            simp only [List.getElem?_cons_succ] at hget1 hget2
            exact ih (a + 1) (clear_tokens (A st).2) i0 rec1 rec2 r hget1 hget2 hres hs
      · by_cases hraise : raiseFlag = true ∧ 400 ≤ r0.status
        · by_cases hfin : limit ≤ a
          · simp [execAux, hT, h401, hraise, hfin] at hget1 hget2
          · simp only [execAux, hT, if_neg h401, if_pos hraise, if_neg hfin]
              at hget1 hget2
            cases i with
            | zero =>
              simp only [List.getElem?_cons_zero, Option.some.injEq] at hget1
              rw [← hget1] at hres
              simp at hres
              rw [hres] at h401
              exact absurd hs h401
            | succ i0 =>
              simp only [List.getElem?_cons_succ] at hget1 hget2
              exact ih (a + 1) (A st).2 i0 rec1 rec2 r hget1 hget2 hres hs
        · simp [execAux, hT, h401, hraise] at hget1 hget2

/-- C7: whenever `_make_authenticated_request` receives a 401 or 403 response
on a non-final attempt (i.e. an attempt that is followed by another one), the
following attempt starts from a token store with all three fields cleared, so
the retry's token acquisition never observes the rejected cached access
token: the store's access token before the retry's new login is absent, and
in particular differs from whatever token the failed attempt used. -/
theorem retry_starts_from_cleared_store (limit : Nat) (raiseFlag : Bool)
    (A : TMState → Option String × TMState)
    (T : Nat → Option String → TransportResult) (st : TMState)
    (i : Nat) (rec1 rec2 : AttemptRec) (r : HttpResponse)
    (hget1 : (make_authenticated_request limit raiseFlag A T st).2[i]? = some rec1)
    (hget2 : (make_authenticated_request limit raiseFlag A T st).2[i + 1]? = some rec2)
    (hres : rec1.result = TransportResult.ok r)
    (hs : r.status = 401 ∨ r.status = 403) :
    rec2.stateBefore = emptyTM ∧
    rec2.stateBefore.access = none ∧
    (∀ t, rec1.tokenUsed = some t → rec2.stateBefore.access ≠ some t) := by
  have h := execAux_clear_adjacent raiseFlag limit A T (limit + 1) 0 st i
    rec1 rec2 r hget1 hget2 hres hs
  refine ⟨h, ?_, ?_⟩
  · rw [h]
    rfl
  · intro t _
    rw [h]
    simp [emptyTM]

/-- Witness for `retry_starts_from_cleared_store`: limit 1, a store holding
token "tok", a transport answering 401 on attempt 0 and 200 afterwards — the
second attempt starts from the cleared store. -/
theorem retry_starts_from_cleared_store_witness :
    ((make_authenticated_request 1 false (fun st => (get_access_token st, st))
        (fun i _ => if i = 0 then TransportResult.ok ⟨401⟩
          else TransportResult.ok ⟨200⟩)
        ⟨some "tok", none, none⟩).2[0]?
      = some ⟨⟨some "tok", none, none⟩, some "tok", TransportResult.ok ⟨401⟩⟩ ∧
    (make_authenticated_request 1 false (fun st => (get_access_token st, st))
        (fun i _ => if i = 0 then TransportResult.ok ⟨401⟩
          else TransportResult.ok ⟨200⟩)
        ⟨some "tok", none, none⟩).2[0 + 1]?
      = some ⟨emptyTM, none, TransportResult.ok ⟨200⟩⟩ ∧
    (⟨⟨some "tok", none, none⟩, some "tok", TransportResult.ok ⟨401⟩⟩
        : AttemptRec).result = TransportResult.ok ⟨401⟩ ∧
    ((⟨401⟩ : HttpResponse).status = 401 ∨ (⟨401⟩ : HttpResponse).status = 403)) ∧
    ((⟨emptyTM, none, TransportResult.ok ⟨200⟩⟩ : AttemptRec).stateBefore = emptyTM ∧
    (⟨emptyTM, none, TransportResult.ok ⟨200⟩⟩ : AttemptRec).stateBefore.access = none ∧
    (∀ t, (⟨⟨some "tok", none, none⟩, some "tok", TransportResult.ok ⟨401⟩⟩
        : AttemptRec).tokenUsed = some t →
      (⟨emptyTM, none, TransportResult.ok ⟨200⟩⟩
        : AttemptRec).stateBefore.access ≠ some t)) :=
  ⟨⟨by decide, by decide, rfl, Or.inl rfl⟩,
    retry_starts_from_cleared_store 1 false (fun st => (get_access_token st, st))
      (fun i _ => if i = 0 then TransportResult.ok ⟨401⟩
        else TransportResult.ok ⟨200⟩)
      ⟨some "tok", none, none⟩ 0
      ⟨⟨some "tok", none, none⟩, some "tok", TransportResult.ok ⟨401⟩⟩
      ⟨emptyTM, none, TransportResult.ok ⟨200⟩⟩ ⟨401⟩
      (by decide) (by decide) rfl (Or.inl rfl)⟩
